import Mathlib

/-!
Shallow embedding of `homework.py`, a fitness-tracker calculator with a base
workout class `Training`, three variants `Running`, `SportsWalking`,
`Swimming`, an `InfoMessage` report formatter, and a `read_package`
dispatcher.  Python floats are modelled as exact rationals (the formulas are
pure arithmetic; the spec treats the numbers as real-valued), Python
exceptions as `Except PyError`.
-/

/-- Python exceptions that the program can raise. -/
inductive PyError
  | valueError (msg : String)
  | typeError
  | notImplementedError (msg : String)
  deriving DecidableEq, Repr

/-- Record of the dataclass `Running(Training)`: fields `action`, `duration`,
`weight` inherited from `Training`.  Python annotations (`int`/`float`) are
unenforced at runtime; all numeric fields are modelled as `ℚ`. -/
structure Running where
  action : ℚ
  duration : ℚ
  weight : ℚ
  deriving DecidableEq, Repr

/-- Record of the dataclass `SportsWalking(Training)`: inherited fields plus
`height`. -/
structure SportsWalking where
  action : ℚ
  duration : ℚ
  weight : ℚ
  height : ℚ
  deriving DecidableEq, Repr

/-- Record of the dataclass `Swimming(Training)`: inherited fields plus
`length_pool` and `count_pool`. -/
structure Swimming where
  action : ℚ
  duration : ℚ
  weight : ℚ
  length_pool : ℚ
  count_pool : ℚ
  deriving DecidableEq, Repr

/-- The closed set of workout variants built by the dispatcher
(`WORKOUT_TYPES` maps onto exactly these three subclasses of `Training`). -/
inductive Training
  | running (r : Running)
  | walking (w : SportsWalking)
  | swimming (s : Swimming)
  deriving DecidableEq, Repr

namespace Training

/-- `Training.LEN_STEP` class variable (base value, 0.65). -/
def LEN_STEP : ℚ := 0.65

/-- `Training.M_IN_KM` class variable. -/
def M_IN_KM : ℚ := 1000

/-- `Training.MIN_IN_H` class variable. -/
def MIN_IN_H : ℚ := 60

end Training

namespace Running

/-- `Running.CALORIES_MEAN_SPEED_MULTIPLIER` class variable. -/
def CALORIES_MEAN_SPEED_MULTIPLIER : ℚ := 18

/-- `Running.CALORIES_MEAN_SPEED_SHIFT` class variable. -/
def CALORIES_MEAN_SPEED_SHIFT : ℚ := 1.79

end Running

namespace SportsWalking

/-- `SportsWalking.CALORIES_MEAN_SPEED_MULTIPLIER` class variable. -/
def CALORIES_MEAN_SPEED_MULTIPLIER : ℚ := 0.035

/-- `SportsWalking.CALORIES_MEAN_SPEED_SHIFT` class variable. -/
def CALORIES_MEAN_SPEED_SHIFT : ℚ := 0.029

/-- `SportsWalking.M_IN_SEC` class variable. -/
def M_IN_SEC : ℚ := 0.278

/-- `SportsWalking.СM_IN_M` class variable (the source spells the name with a
Cyrillic С; plain Latin letters here). -/
def CM_IN_M : ℚ := 100

end SportsWalking

namespace Swimming

/-- `Swimming.LEN_STEP` class variable, overriding the base 0.65. -/
def LEN_STEP : ℚ := 1.38

/-- `Swimming.CALORIES_MEAN_SPEED_MULTIPLIER` class variable. -/
def CALORIES_MEAN_SPEED_MULTIPLIER : ℚ := 1.1

/-- `Swimming.CALORIES_MEAN_SPEED_SHIFT` class variable. -/
def CALORIES_MEAN_SPEED_SHIFT : ℚ := 2

end Swimming

namespace Training

/-- Attribute lookup `self.LEN_STEP`: `Swimming` overrides the class variable,
`Running` and `SportsWalking` inherit the base value. -/
def lenStep : Training → ℚ
  | .swimming _ => Swimming.LEN_STEP
  | _ => Training.LEN_STEP

/-- Attribute lookup `self.action`. -/
def action : Training → ℚ
  | .running r => r.action
  | .walking w => w.action
  | .swimming s => s.action

/-- Attribute lookup `self.duration`. -/
def duration : Training → ℚ
  | .running r => r.duration
  | .walking w => w.duration
  | .swimming s => s.duration

/-- Attribute lookup `self.weight`. -/
def weight : Training → ℚ
  | .running r => r.weight
  | .walking w => w.weight
  | .swimming s => s.weight

/-- `self.__class__.__name__`. -/
def className : Training → String
  | .running _ => "Running"
  | .walking _ => "SportsWalking"
  | .swimming _ => "Swimming"

/-- `Training.get_distance`: `self.action * self.LEN_STEP / self.M_IN_KM`
(no subclass overrides it; `self.LEN_STEP` resolves per variant). -/
def get_distance (t : Training) : ℚ :=
  t.action * t.lenStep / M_IN_KM

/-- `get_mean_speed`: the base implementation is
`self.get_distance() / self.duration`; `Swimming` overrides it by
`self.length_pool * self.count_pool / self.M_IN_KM / self.duration`. -/
def get_mean_speed : Training → ℚ
  | .swimming s => s.length_pool * s.count_pool / M_IN_KM / s.duration
  | t => t.get_distance / t.duration

/-- The body of `Training.get_spent_calories`:
`raise NotImplementedError('Метод будет реализован в дочерних классах')`. -/
def base_get_spent_calories : Except PyError ℚ :=
  .error (.notImplementedError "Метод будет реализован в дочерних классах")

end Training

/-- `Running.get_spent_calories` override. -/
def Running.get_spent_calories (r : Running) : ℚ :=
  (Running.CALORIES_MEAN_SPEED_MULTIPLIER * Training.get_mean_speed (.running r)
      + Running.CALORIES_MEAN_SPEED_SHIFT)
    * r.weight / Training.M_IN_KM * r.duration * Training.MIN_IN_H

/-- `SportsWalking.get_spent_calories` override. -/
def SportsWalking.get_spent_calories (w : SportsWalking) : ℚ :=
  (SportsWalking.CALORIES_MEAN_SPEED_MULTIPLIER * w.weight
      + (Training.get_mean_speed (.walking w) * SportsWalking.M_IN_SEC) ^ 2
          / (w.height / SportsWalking.CM_IN_M)
        * SportsWalking.CALORIES_MEAN_SPEED_SHIFT * w.weight)
    * w.duration * Training.MIN_IN_H

/-- `Swimming.get_spent_calories` override. -/
def Swimming.get_spent_calories (s : Swimming) : ℚ :=
  (Training.get_mean_speed (.swimming s) + Swimming.CALORIES_MEAN_SPEED_MULTIPLIER)
    * Swimming.CALORIES_MEAN_SPEED_SHIFT * s.weight * s.duration

/-- Dynamic method resolution of `self.get_spent_calories()`: each of the
three constructible variants provides its own override, so no case falls
through to `Training.base_get_spent_calories`. -/
def Training.resolved_get_spent_calories : Training → Except PyError ℚ
  | .running r => .ok r.get_spent_calories
  | .walking w => .ok w.get_spent_calories
  | .swimming s => .ok s.get_spent_calories

/-- `self.get_spent_calories()` as the value it returns (total on the three
variants, by `resolved_get_spent_calories`). -/
def Training.get_spent_calories : Training → ℚ
  | .running r => r.get_spent_calories
  | .walking w => w.get_spent_calories
  | .swimming s => s.get_spent_calories

/-- Decimal digit character, `chr(48 + d)` for `d < 10`. -/
def digitChar (d : ℕ) : Char := Char.ofNat (48 + d)

/-- Digit-extraction loop with explicit fuel (structural recursion, so that
proofs can evaluate it); `fuel = n + 1` always suffices since the argument
shrinks by a factor of 10 each step. -/
def natCharsAux : ℕ → ℕ → List Char
  | 0, _ => []
  | fuel + 1, n =>
    if n < 10 then [digitChar n]
    else natCharsAux fuel (n / 10) ++ [digitChar (n % 10)]

/-- Decimal digit characters of a natural number, most significant first
(model of Python `str` on a non-negative integer). -/
def natChars (n : ℕ) : List Char := natCharsAux (n + 1) n

/-- Model of Python fixed-point formatting `format(x, '.3f')`: round to the
nearest thousandth, then print sign, integer part, a point, and exactly three
fractional digits. -/
def fmt3 (q : ℚ) : String :=
  let scaled : ℤ := round (q * 1000)
  let sign : String := if scaled < 0 then "-" else ""
  let n : ℕ := scaled.natAbs
  sign ++ String.mk (natChars (n / 1000)) ++ "."
    ++ String.mk [digitChar (n % 1000 / 100), digitChar (n % 1000 / 10 % 10),
                  digitChar (n % 1000 % 10)]

/-- The dataclass `InfoMessage` (without its class variable `MESSAGE`,
modelled separately as a template). -/
structure InfoMessage where
  training_type : String
  duration : ℚ
  distance : ℚ
  speed : ℚ
  calories : ℚ
  deriving DecidableEq, Repr

/-- The four float fields of `InfoMessage` interpolated with `:.3f`. -/
inductive NumField
  | duration
  | distance
  | speed
  | calories
  deriving DecidableEq, Repr

/-- Field access for the numeric template placeholders. -/
def InfoMessage.numVal (m : InfoMessage) : NumField → ℚ
  | .duration => m.duration
  | .distance => m.distance
  | .speed => m.speed
  | .calories => m.calories

/-- One piece of the `MESSAGE` format string: a literal run, the
`training_type` placeholder (no format spec), or a float placeholder with
format spec `.3f`. -/
inductive TPart
  | lit (s : String)
  | typeField
  | numField (f : NumField)
  deriving DecidableEq, Repr

/-- The class variable `InfoMessage.MESSAGE`, split into literal runs and
placeholders exactly as the source format string is. -/
def InfoMessage.MESSAGE : List TPart :=
  [.lit "Тип тренировки: ", .typeField,
   .lit "; Длительность: ", .numField .duration,
   .lit " ч.; Дистанция: ", .numField .distance,
   .lit " км; Ср. скорость: ", .numField .speed,
   .lit " км/ч; Потрачено ккал: ", .numField .calories,
   .lit "."]

/-- Rendering of one template piece against a message's fields. -/
def InfoMessage.renderPart (m : InfoMessage) : TPart → String
  | .lit s => s
  | .typeField => m.training_type
  | .numField f => fmt3 (m.numVal f)

/-- `InfoMessage.get_message`: `self.MESSAGE.format(**asdict(self))`. -/
def InfoMessage.get_message (m : InfoMessage) : String :=
  (MESSAGE.map m.renderPart).foldl (· ++ ·) ""

/-- `Training.show_training_info`: builds the `InfoMessage` from the class
name and the three computed metrics. -/
def Training.show_training_info (t : Training) : InfoMessage :=
  ⟨t.className, t.duration, t.get_distance, t.get_mean_speed, t.get_spent_calories⟩

/-- `read_package`: dictionary lookup in `WORKOUT_TYPES` followed by the
positional call `WORKOUT_TYPES[workout_type](*data)`.  A known code with the
wrong number of positional values raises `TypeError` from the constructor
call; an unknown code raises `ValueError('Неизвестный тип тренировки')`. -/
def read_package (workout_type : String) (data : List ℚ) : Except PyError Training :=
  if workout_type = "SWM" then
    match data with
    | [a, d, w, lp, cp] => .ok (.swimming ⟨a, d, w, lp, cp⟩)
    | _ => .error .typeError
  else if workout_type = "RUN" then
    match data with
    | [a, d, w] => .ok (.running ⟨a, d, w⟩)
    | _ => .error .typeError
  else if workout_type = "WLK" then
    match data with
    | [a, d, w, h] => .ok (.walking ⟨a, d, w, h⟩)
    | _ => .error .typeError
  else
    .error (.valueError "Неизвестный тип тренировки")

namespace Homework

/-- `main(training)`: the line printed for one workout. -/
def main (training : Training) : String :=
  training.show_training_info.get_message

end Homework

/-- The `packages` list of the `__main__` block. -/
def packages : List (String × List ℚ) :=
  [("SWM", [720, 1, 80, 25, 40]),
   ("RUN", [15000, 1, 75]),
   ("WLK", [9000, 1, 75, 180])]

/-- The `__main__` loop: one output line per input pair; the first raised
exception aborts the run (`mapM` over `Except`). -/
def programOutput : Except PyError (List String) :=
  packages.mapM fun p => (read_package p.1 p.2).map Homework.main

/-- The `:.3f`-formatted fields of a message, in template order. -/
def InfoMessage.numericFields (m : InfoMessage) : List String :=
  InfoMessage.MESSAGE.filterMap fun p =>
    match p with
    | .numField f => some (fmt3 (m.numVal f))
    | _ => none

/-- A string whose final decimal point is followed by exactly three digit
characters (and is the only decimal point). -/
def fixed3Shape (s : String) : Prop :=
  ∃ pre : List Char, (∀ c ∈ pre, c ≠ '.') ∧
    ∃ d1 d2 d3 : Char, d1.isDigit ∧ d2.isDigit ∧ d3.isDigit ∧
      s.data = pre ++ '.' :: [d1, d2, d3]

/-! ## Helper lemmas -/

/-- Evaluation rule for `round` on rationals via the floor characterisation. -/
lemma round_rat_eq (q : ℚ) (z : ℤ) (h1 : (z : ℚ) ≤ q + 1 / 2) (h2 : q + 1 / 2 < z + 1) :
    round q = z := by
  rw [round_eq]
  exact Int.floor_eq_iff.mpr ⟨h1, h2⟩

/-- `fmt3` rewritten once the rounded integer is known. -/
lemma fmt3_of_round (q : ℚ) (z : ℤ) (h : round (q * 1000) = z) :
    fmt3 q = (if z < 0 then "-" else "") ++ String.mk (natChars (z.natAbs / 1000)) ++ "."
      ++ String.mk [digitChar (z.natAbs % 1000 / 100), digitChar (z.natAbs % 1000 / 10 % 10),
                    digitChar (z.natAbs % 1000 % 10)] := by
  simp only [fmt3, h]

lemma fmt3_one : fmt3 (1 : ℚ) = "1.000" := by
  rw [fmt3_of_round 1 1000 (round_rat_eq _ _ (by norm_num) (by norm_num))]
  decide

lemma fmt3_dist_swm : fmt3 (0.9936 : ℚ) = "0.994" := by
  rw [fmt3_of_round 0.9936 994 (round_rat_eq _ _ (by norm_num) (by norm_num))]
  decide

lemma fmt3_cal_swm : fmt3 (336 : ℚ) = "336.000" := by
  rw [fmt3_of_round 336 336000 (round_rat_eq _ _ (by norm_num) (by norm_num))]
  decide

lemma fmt3_dist_run : fmt3 (9.75 : ℚ) = "9.750" := by
  rw [fmt3_of_round 9.75 9750 (round_rat_eq _ _ (by norm_num) (by norm_num))]
  decide

lemma fmt3_cal_run : fmt3 (797.805 : ℚ) = "797.805" := by
  rw [fmt3_of_round 797.805 797805 (round_rat_eq _ _ (by norm_num) (by norm_num))]
  decide

lemma fmt3_dist_wlk : fmt3 (5.85 : ℚ) = "5.850" := by
  rw [fmt3_of_round 5.85 5850 (round_rat_eq _ _ (by norm_num) (by norm_num))]
  decide

lemma fmt3_cal_wlk : fmt3 (349.251747525 : ℚ) = "349.252" := by
  rw [fmt3_of_round 349.251747525 349252 (round_rat_eq _ _ (by norm_num) (by norm_num))]
  decide

/-! ## Claim theorems -/

/-- C4: for every workout, `get_distance` equals `action * step_length / 1000`,
where the step-length constant is 0.65 for `Running` and `SportsWalking` and
1.38 for `Swimming`. -/
theorem C4_distance_formula :
    (∀ r : Running, Training.lenStep (.running r) = 0.65) ∧
    (∀ w : SportsWalking, Training.lenStep (.walking w) = 0.65) ∧
    (∀ s : Swimming, Training.lenStep (.swimming s) = 1.38) ∧
    (∀ t : Training, t.get_distance = t.action * t.lenStep / 1000) := by
  refine ⟨fun r => rfl, fun w => rfl, fun s => rfl, fun t => rfl⟩

/-- C5: for every workout with positive duration, `get_mean_speed` is
`get_distance / duration` for `Running` and `SportsWalking`, while `Swimming`
uses `(length_pool * count_pool / 1000) / duration` instead. -/
theorem C5_mean_speed :
    (∀ r : Running, 0 < r.duration →
      Training.get_mean_speed (.running r) = Training.get_distance (.running r) / r.duration) ∧
    (∀ w : SportsWalking, 0 < w.duration →
      Training.get_mean_speed (.walking w) = Training.get_distance (.walking w) / w.duration) ∧
    (∀ s : Swimming, 0 < s.duration →
      Training.get_mean_speed (.swimming s) = s.length_pool * s.count_pool / 1000 / s.duration) := by
  refine ⟨fun r _ => rfl, fun w _ => rfl, fun s _ => rfl⟩

/-- Witness for C5 at the sample workouts. -/
theorem C5_mean_speed_witness :
    Training.get_mean_speed (.running ⟨15000, 1, 75⟩)
        = Training.get_distance (.running ⟨15000, 1, 75⟩) / (1 : ℚ) ∧
    Training.get_mean_speed (.swimming ⟨720, 1, 80, 25, 40⟩) = 25 * 40 / 1000 / (1 : ℚ) :=
  ⟨C5_mean_speed.1 ⟨15000, 1, 75⟩ (by norm_num),
   C5_mean_speed.2.2 ⟨720, 1, 80, 25, 40⟩ (by norm_num)⟩

/-- C3: for every `Running` workout with positive duration, the calories are
`(18 * mean_speed + 1.79) * weight / 1000 * duration * 60`, and at
`action = 15000`, `duration = 1`, `weight = 75` they equal
`(18 * 9.75 + 1.79) * 75 / 1000 * 1 * 60` with no rounding. -/
theorem C3_running_calories :
    (∀ r : Running, 0 < r.duration → r.get_spent_calories
        = (18 * Training.get_mean_speed (.running r) + 1.79) * r.weight / 1000
            * r.duration * 60) ∧
    Running.get_spent_calories ⟨15000, 1, 75⟩ = (18 * (9.75 : ℚ) + 1.79) * 75 / 1000 * 1 * 60 := by
  refine ⟨fun r _ => rfl, ?_⟩
  norm_num [Running.get_spent_calories, Training.get_mean_speed, Training.get_distance,
    Training.M_IN_KM, Training.MIN_IN_H, Training.lenStep, Training.LEN_STEP,
    Training.action, Training.duration, Running.CALORIES_MEAN_SPEED_MULTIPLIER,
    Running.CALORIES_MEAN_SPEED_SHIFT]

/-- Witness for C3 at the sample running workout. -/
theorem C3_running_calories_witness :
    Running.get_spent_calories ⟨15000, 1, 75⟩
      = (18 * Training.get_mean_speed (.running ⟨15000, 1, 75⟩) + 1.79) * 75 / 1000 * 1 * 60 :=
  C3_running_calories.1 ⟨15000, 1, 75⟩ (by norm_num)

/-- C6: for every `SportsWalking` workout with positive duration and height,
the calories are
`(0.035 * weight + (mean_speed * 0.278)^2 / (height / 100) * 0.029 * weight) * duration * 60`,
and at `action = 9000`, `duration = 1`, `weight = 75`, `height = 180` they
equal the reference computation exactly. -/
theorem C6_walking_calories :
    (∀ w : SportsWalking, 0 < w.duration → 0 < w.height → w.get_spent_calories
        = (0.035 * w.weight
            + (Training.get_mean_speed (.walking w) * 0.278) ^ 2 / (w.height / 100)
                * 0.029 * w.weight) * w.duration * 60) ∧
    SportsWalking.get_spent_calories ⟨9000, 1, 75, 180⟩
      = (0.035 * 75 + ((5.85 : ℚ) * 0.278) ^ 2 / (180 / 100) * 0.029 * 75) * 1 * 60 := by
  refine ⟨fun w _ _ => rfl, ?_⟩
  norm_num [SportsWalking.get_spent_calories, Training.get_mean_speed, Training.get_distance,
    Training.M_IN_KM, Training.MIN_IN_H, Training.lenStep, Training.LEN_STEP,
    Training.action, Training.duration, SportsWalking.CALORIES_MEAN_SPEED_MULTIPLIER,
    SportsWalking.CALORIES_MEAN_SPEED_SHIFT, SportsWalking.M_IN_SEC, SportsWalking.CM_IN_M]

/-- Witness for C6 at the sample walking workout. -/
theorem C6_walking_calories_witness :
    SportsWalking.get_spent_calories ⟨9000, 1, 75, 180⟩
      = (0.035 * 75
          + (Training.get_mean_speed (.walking ⟨9000, 1, 75, 180⟩) * 0.278) ^ 2 / (180 / 100)
              * 0.029 * 75) * 1 * 60 :=
  C6_walking_calories.1 ⟨9000, 1, 75, 180⟩ (by norm_num) (by norm_num)

/-- C7: for every `Swimming` workout with positive duration, the calories are
`(mean_speed + 1.1) * 2 * weight * duration`; at `action = 720`,
`duration = 1`, `weight = 80`, `length_pool = 25`, `count_pool = 40` the mean
speed is 1 km/h and the calories are exactly 336. -/
theorem C7_swimming_calories :
    (∀ s : Swimming, 0 < s.duration → s.get_spent_calories
        = (Training.get_mean_speed (.swimming s) + 1.1) * 2 * s.weight * s.duration) ∧
    Training.get_mean_speed (.swimming ⟨720, 1, 80, 25, 40⟩) = 1 ∧
    Swimming.get_spent_calories ⟨720, 1, 80, 25, 40⟩ = 336 := by
  refine ⟨fun s _ => rfl, ?_, ?_⟩
  · norm_num [Training.get_mean_speed, Training.M_IN_KM]
  · norm_num [Swimming.get_spent_calories, Training.get_mean_speed, Training.M_IN_KM,
      Swimming.CALORIES_MEAN_SPEED_MULTIPLIER, Swimming.CALORIES_MEAN_SPEED_SHIFT]

/-- Witness for C7 at the sample swimming workout. -/
theorem C7_swimming_calories_witness :
    Swimming.get_spent_calories ⟨720, 1, 80, 25, 40⟩
      = (Training.get_mean_speed (.swimming ⟨720, 1, 80, 25, 40⟩) + 1.1) * 2 * 80 * 1 :=
  C7_swimming_calories.1 ⟨720, 1, 80, 25, 40⟩ (by norm_num)

/-- C9: the base `Training.get_spent_calories` body raises
`NotImplementedError`, and method resolution never reaches it: every
constructible variant resolves to its own override's value. -/
theorem C9_base_calories_abstract :
    Training.base_get_spent_calories
        = .error (.notImplementedError "Метод будет реализован в дочерних классах") ∧
    ∀ t : Training, t.resolved_get_spent_calories = .ok t.get_spent_calories := by
  refine ⟨rfl, fun t => ?_⟩
  cases t <;> rfl

/-- C10: speed times duration recovers the distance for `Running` and
`SportsWalking`, but not for `Swimming`, whose distance still comes from
`action * 1.38 / 1000` while its speed comes from the pool fields. -/
theorem C10_speed_distance_identity :
    (∀ r : Running, 0 < r.duration →
      Training.get_mean_speed (.running r) * r.duration = Training.get_distance (.running r)) ∧
    (∀ w : SportsWalking, 0 < w.duration →
      Training.get_mean_speed (.walking w) * w.duration = Training.get_distance (.walking w)) ∧
    ∃ s : Swimming, 0 < s.duration ∧ 0 ≤ s.action ∧ 0 ≤ s.weight ∧
      0 ≤ s.length_pool ∧ 0 ≤ s.count_pool ∧
      Training.get_mean_speed (.swimming s) * s.duration ≠ Training.get_distance (.swimming s) := by
  refine ⟨fun r h => div_mul_cancel₀ _ (ne_of_gt h),
          fun w h => div_mul_cancel₀ _ (ne_of_gt h),
          ⟨720, 1, 80, 25, 40⟩, by norm_num, by norm_num, by norm_num, by norm_num, by norm_num, ?_⟩
  norm_num [Training.get_mean_speed, Training.get_distance, Training.M_IN_KM,
    Training.lenStep, Swimming.LEN_STEP, Training.action, Training.duration]

/-- Witness for C10 at the sample workouts. -/
theorem C10_speed_distance_identity_witness :
    Training.get_mean_speed (.running ⟨15000, 1, 75⟩) * (1 : ℚ)
        = Training.get_distance (.running ⟨15000, 1, 75⟩) ∧
    Training.get_mean_speed (.walking ⟨9000, 1, 75, 180⟩) * (1 : ℚ)
        = Training.get_distance (.walking ⟨9000, 1, 75, 180⟩) :=
  ⟨C10_speed_distance_identity.1 ⟨15000, 1, 75⟩ (by norm_num),
   C10_speed_distance_identity.2.1 ⟨9000, 1, 75, 180⟩ (by norm_num)⟩

/-- C2 counterexample: with code "SWM" but an empty data sequence the
dispatcher does not return a `Swimming` instance; the constructor call raises
`TypeError`. -/
theorem C2_counterexample : read_package "SWM" ([] : List ℚ) = .error .typeError := rfl

/-- C2 (amended): with data of the arity the variant constructor expects, the
dispatcher returns the matching variant; a known code with data of any other
length raises `TypeError` from the constructor call; and every code outside
SWM / RUN / WLK raises `ValueError('Неизвестный тип тренировки')`, whatever
the data. -/
theorem C2_read_package :
    (∀ a d w lp cp : ℚ, read_package "SWM" [a, d, w, lp, cp] = .ok (.swimming ⟨a, d, w, lp, cp⟩)) ∧
    (∀ a d w : ℚ, read_package "RUN" [a, d, w] = .ok (.running ⟨a, d, w⟩)) ∧
    (∀ a d w h : ℚ, read_package "WLK" [a, d, w, h] = .ok (.walking ⟨a, d, w, h⟩)) ∧
    (∀ data : List ℚ, data.length ≠ 5 → read_package "SWM" data = .error .typeError) ∧
    (∀ data : List ℚ, data.length ≠ 3 → read_package "RUN" data = .error .typeError) ∧
    (∀ data : List ℚ, data.length ≠ 4 → read_package "WLK" data = .error .typeError) ∧
    (∀ (code : String) (data : List ℚ), code ≠ "SWM" → code ≠ "RUN" → code ≠ "WLK" →
      read_package code data = .error (.valueError "Неизвестный тип тренировки")) := by
  refine ⟨fun a d w lp cp => rfl, fun a d w => rfl, fun a d w h => rfl,
          fun data h => ?_, fun data h => ?_, fun data h => ?_,
          fun code data h1 h2 h3 => ?_⟩
  · rcases data with _ | ⟨a, _ | ⟨b, _ | ⟨c, _ | ⟨d, _ | ⟨e, _ | ⟨f, rest⟩⟩⟩⟩⟩⟩
    · rfl
    · rfl
    · rfl
    · rfl
    · rfl
    · exact absurd rfl h
    · rfl
  · rcases data with _ | ⟨a, _ | ⟨b, _ | ⟨c, _ | ⟨d, rest⟩⟩⟩⟩
    · rfl
    · rfl
    · rfl
    · exact absurd rfl h
    · rfl
  · rcases data with _ | ⟨a, _ | ⟨b, _ | ⟨c, _ | ⟨d, _ | ⟨e, rest⟩⟩⟩⟩⟩
    · rfl
    · rfl
    · rfl
    · rfl
    · exact absurd rfl h
    · rfl
  · simp [read_package, h1, h2, h3]

/-- Witness for C2 at a concrete wrong-arity call and a concrete unknown
code. -/
theorem C2_read_package_witness :
    read_package "SWM" ([] : List ℚ) = .error .typeError ∧
    read_package "RUN" ([(1 : ℚ)] : List ℚ) = .error .typeError ∧
    read_package "WLK" ([] : List ℚ) = .error .typeError ∧
    read_package "XYZ" ([] : List ℚ) = .error (.valueError "Неизвестный тип тренировки") :=
  ⟨C2_read_package.2.2.2.1 [] (by decide),
   C2_read_package.2.2.2.2.1 [(1 : ℚ)] (by decide),
   C2_read_package.2.2.2.2.2.1 [] (by decide),
   C2_read_package.2.2.2.2.2.2 "XYZ" [] (by decide) (by decide) (by decide)⟩

/-- Structural form of the rendered message: the literal runs of `MESSAGE`
with the five fields interpolated in order. -/
lemma get_message_eq (m : InfoMessage) :
    m.get_message = "Тип тренировки: " ++ m.training_type ++ "; Длительность: "
      ++ fmt3 m.duration ++ " ч.; Дистанция: " ++ fmt3 m.distance ++ " км; Ср. скорость: "
      ++ fmt3 m.speed ++ " км/ч; Потрачено ккал: " ++ fmt3 m.calories ++ "." := rfl

lemma swm_distance : Training.get_distance (.swimming ⟨720, 1, 80, 25, 40⟩) = 0.9936 := by
  norm_num [Training.get_distance, Training.action, Training.lenStep, Swimming.LEN_STEP,
    Training.M_IN_KM]

lemma run_distance : Training.get_distance (.running ⟨15000, 1, 75⟩) = 9.75 := by
  norm_num [Training.get_distance, Training.action, Training.lenStep, Training.LEN_STEP,
    Training.M_IN_KM]

lemma run_speed : Training.get_mean_speed (.running ⟨15000, 1, 75⟩) = 9.75 := by
  norm_num [Training.get_mean_speed, Training.get_distance, Training.action, Training.duration,
    Training.lenStep, Training.LEN_STEP, Training.M_IN_KM]

lemma run_calories : Running.get_spent_calories ⟨15000, 1, 75⟩ = 797.805 := by
  norm_num [Running.get_spent_calories, Training.get_mean_speed, Training.get_distance,
    Training.M_IN_KM, Training.MIN_IN_H, Training.lenStep, Training.LEN_STEP,
    Training.action, Training.duration, Running.CALORIES_MEAN_SPEED_MULTIPLIER,
    Running.CALORIES_MEAN_SPEED_SHIFT]

lemma wlk_distance : Training.get_distance (.walking ⟨9000, 1, 75, 180⟩) = 5.85 := by
  norm_num [Training.get_distance, Training.action, Training.lenStep, Training.LEN_STEP,
    Training.M_IN_KM]

lemma wlk_speed : Training.get_mean_speed (.walking ⟨9000, 1, 75, 180⟩) = 5.85 := by
  norm_num [Training.get_mean_speed, Training.get_distance, Training.action, Training.duration,
    Training.lenStep, Training.LEN_STEP, Training.M_IN_KM]

lemma wlk_calories : SportsWalking.get_spent_calories ⟨9000, 1, 75, 180⟩ = 349.251747525 := by
  norm_num [SportsWalking.get_spent_calories, Training.get_mean_speed, Training.get_distance,
    Training.M_IN_KM, Training.MIN_IN_H, Training.lenStep, Training.LEN_STEP,
    Training.action, Training.duration, SportsWalking.CALORIES_MEAN_SPEED_MULTIPLIER,
    SportsWalking.CALORIES_MEAN_SPEED_SHIFT, SportsWalking.M_IN_SEC, SportsWalking.CM_IN_M]

lemma swm_speed : Training.get_mean_speed (.swimming ⟨720, 1, 80, 25, 40⟩) = 1 := by
  norm_num [Training.get_mean_speed, Training.M_IN_KM]

lemma swm_calories : Swimming.get_spent_calories ⟨720, 1, 80, 25, 40⟩ = 336 := by
  norm_num [Swimming.get_spent_calories, Training.get_mean_speed, Training.M_IN_KM,
    Swimming.CALORIES_MEAN_SPEED_MULTIPLIER, Swimming.CALORIES_MEAN_SPEED_SHIFT]

lemma main_swm :
    Homework.main (.swimming ⟨720, 1, 80, 25, 40⟩)
      = "Тип тренировки: Swimming; Длительность: 1.000 ч.; Дистанция: 0.994 км; Ср. скорость: 1.000 км/ч; Потрачено ккал: 336.000." := by
  rw [show Homework.main (.swimming ⟨720, 1, 80, 25, 40⟩)
        = (Training.show_training_info (.swimming ⟨720, 1, 80, 25, 40⟩)).get_message from rfl,
      get_message_eq]
  simp only [Training.show_training_info, Training.className, Training.duration,
    Training.get_spent_calories, swm_distance, swm_speed, swm_calories]
  rw [fmt3_one, fmt3_dist_swm, fmt3_cal_swm]
  decide

lemma main_run :
    Homework.main (.running ⟨15000, 1, 75⟩)
      = "Тип тренировки: Running; Длительность: 1.000 ч.; Дистанция: 9.750 км; Ср. скорость: 9.750 км/ч; Потрачено ккал: 797.805." := by
  rw [show Homework.main (.running ⟨15000, 1, 75⟩)
        = (Training.show_training_info (.running ⟨15000, 1, 75⟩)).get_message from rfl,
      get_message_eq]
  simp only [Training.show_training_info, Training.className, Training.duration,
    Training.get_spent_calories, run_distance, run_speed, run_calories]
  rw [fmt3_one, fmt3_dist_run, fmt3_cal_run]
  decide

lemma main_wlk :
    Homework.main (.walking ⟨9000, 1, 75, 180⟩)
      = "Тип тренировки: SportsWalking; Длительность: 1.000 ч.; Дистанция: 5.850 км; Ср. скорость: 5.850 км/ч; Потрачено ккал: 349.252." := by
  rw [show Homework.main (.walking ⟨9000, 1, 75, 180⟩)
        = (Training.show_training_info (.walking ⟨9000, 1, 75, 180⟩)).get_message from rfl,
      get_message_eq]
  simp only [Training.show_training_info, Training.className, Training.duration,
    Training.get_spent_calories, wlk_distance, wlk_speed, wlk_calories]
  rw [fmt3_one, fmt3_dist_wlk, fmt3_cal_wlk]
  decide

/-- C1 (amended): the formatter always produces the code's fixed template —
the Russian-label string `'Тип тренировки: ...; Длительность: ... ч.; ...'`
with the four metrics substituted at 3 decimals — and the program writes one
such line per input pair. -/
theorem C1_message_template :
    (∀ m : InfoMessage, m.get_message = "Тип тренировки: " ++ m.training_type
        ++ "; Длительность: " ++ fmt3 m.duration ++ " ч.; Дистанция: " ++ fmt3 m.distance
        ++ " км; Ср. скорость: " ++ fmt3 m.speed ++ " км/ч; Потрачено ккал: "
        ++ fmt3 m.calories ++ ".") ∧
    programOutput = .ok
      ["Тип тренировки: Swimming; Длительность: 1.000 ч.; Дистанция: 0.994 км; Ср. скорость: 1.000 км/ч; Потрачено ккал: 336.000.",
       "Тип тренировки: Running; Длительность: 1.000 ч.; Дистанция: 9.750 км; Ср. скорость: 9.750 км/ч; Потрачено ккал: 797.805.",
       "Тип тренировки: SportsWalking; Длительность: 1.000 ч.; Дистанция: 5.850 км; Ср. скорость: 5.850 км/ч; Потрачено ккал: 349.252."] := by
  refine ⟨fun m => get_message_eq m, ?_⟩
  rw [show programOutput = .ok [Homework.main (.swimming ⟨720, 1, 80, 25, 40⟩),
        Homework.main (.running ⟨15000, 1, 75⟩),
        Homework.main (.walking ⟨9000, 1, 75, 180⟩)] from rfl,
      main_swm, main_run, main_wlk]

/-- C1 counterexample: the line actually written for the sample swimming
workout is not the English-template line claimed in the spec. -/
theorem C1_counterexample :
    Homework.main (.swimming ⟨720, 1, 80, 25, 40⟩)
      ≠ "Workout type: Swimming; Duration: 1.000 h; Distance: 0.994 km; Avg speed: 1.000 km/h; Calories: 336.000." := by
  rw [main_swm]
  decide

lemma digitChar_isDigit (d : ℕ) (h : d < 10) : (digitChar d).isDigit := by
  interval_cases d <;> decide

lemma natCharsAux_digits (fuel : ℕ) : ∀ n, ∀ c ∈ natCharsAux fuel n, c.isDigit := by
  induction fuel with
  | zero => intro n c hc; simp [natCharsAux] at hc
  | succ fuel ih =>
    intro n c hc
    simp only [natCharsAux] at hc
    by_cases h : n < 10
    · rw [if_pos h] at hc
      simp only [List.mem_singleton] at hc
      subst hc
      exact digitChar_isDigit n h
    · rw [if_neg h] at hc
      rcases List.mem_append.mp hc with h1 | h2
      · exact ih _ _ h1
      · simp only [List.mem_singleton] at h2
        subst h2
        exact digitChar_isDigit _ (Nat.mod_lt _ (by norm_num))

lemma natChars_digits (n : ℕ) : ∀ c ∈ natChars n, c.isDigit :=
  natCharsAux_digits (n + 1) n

lemma isDigit_ne_dot {c : Char} (h : c.isDigit) : c ≠ '.' := by
  intro he
  subst he
  exact absurd h (by decide)

/-- C8: the report carries exactly four numeric fields, and `fmt3` always
renders fixed-point with exactly three digits after the (unique) decimal
point, whatever the magnitude or sign of its argument. -/
theorem C8_three_decimals :
    (∀ m : InfoMessage, m.numericFields
        = [fmt3 m.duration, fmt3 m.distance, fmt3 m.speed, fmt3 m.calories]) ∧
    (∀ m : InfoMessage, m.numericFields.length = 4) ∧
    (∀ q : ℚ, fixed3Shape (fmt3 q)) := by
  refine ⟨fun m => rfl, fun m => rfl, fun q => ?_⟩
  refine ⟨(if round (q * 1000) < 0 then "-" else "").data
            ++ natChars ((round (q * 1000)).natAbs / 1000), ?_, 
          digitChar ((round (q * 1000)).natAbs % 1000 / 100),
          digitChar ((round (q * 1000)).natAbs % 1000 / 10 % 10),
          digitChar ((round (q * 1000)).natAbs % 1000 % 10),
          digitChar_isDigit _ (by omega), digitChar_isDigit _ (by omega),
          digitChar_isDigit _ (by omega), ?_⟩
  · intro c hc
    rcases List.mem_append.mp hc with h1 | h2
    · split at h1
      · simp only [String.data] at h1
        simp at h1
        subst h1
        decide
      · simp [String.data] at h1
    · exact isDigit_ne_dot (natChars_digits _ c h2)
  · simp only [fmt3, String.data_append, List.append_assoc]
    rfl
